import Mathlib

/-!
Shallow embedding of `src/app.py` of the ace-est-fitness-and-gym repository:
the `FitnessTracker` class (workout store, user profile, calorie/BMI/BMR
arithmetic) and the summary computation, with theorems checking the
specification's claims against it.

Python runtime values that can flow into the tracker's methods are modelled
by `PyVal`; Python numbers are modelled exactly (`Int` for `int`, `Rat` for
`float`), exceptions by an explicit error type threaded through `Except`.
Stateful methods take and return the tracker state explicitly; each method
returns the raised error (if any) together with the post state, mirroring
the fact that in the source every `raise` happens before any mutation or
after all of them.
-/

namespace AceFitness

/-- A Python runtime value as passed to the tracker's methods: `None`, an
`int`, a `float` (modelled exactly as a rational), or a `str`. -/
inductive PyVal where
  | none : PyVal
  | int : Int → PyVal
  | float : Rat → PyVal
  | str : String → PyVal
deriving DecidableEq, Repr

/-- Python truthiness of a `PyVal`: `None`, `0`, `0.0` and `""` are falsy. -/
def PyVal.truthy : PyVal → Bool
  | .none => false
  | .int n => n != 0
  | .float q => q != 0
  | .str s => s != ""

/-- `isinstance(v, int)` for a `PyVal`. -/
def PyVal.isInt : PyVal → Bool
  | .int _ => true
  | _ => false

/-- A raised Python exception, by class and message. -/
inductive PyError where
  | valueError (msg : String)
  | typeError (msg : String)
  | attributeError (msg : String)
deriving DecidableEq, Repr

/-- Whether a raised exception is of class `TypeError`. -/
def PyError.isTypeError : PyError → Bool
  | .typeError _ => true
  | _ => false

/-- One logged workout session, as built by `FitnessTracker.add_workout`. -/
structure Entry where
  exercise : String
  duration : Int
  calories : Rat
  timestamp : String
deriving DecidableEq, Repr

/-- The module-level `MET_VALUES` dict. -/
def MET_VALUES : List (String × Rat) :=
  [("Warm-up", 3), ("Workout", 6), ("Cool-down", 5/2)]

/-- `k in d` for a Python dict modelled as an insertion-ordered
association list. -/
def dictContains (d : List (String × α)) (k : String) : Bool :=
  (d.lookup k).isSome

/-- `d[k] = v` on a Python dict: replace in place when the key exists
(key order preserved), append otherwise. -/
def dictSet : List (String × α) → String → α → List (String × α)
  | [], k, v => [(k, v)]
  | (k', v') :: rest, k, v =>
    if k' = k then (k, v) :: rest else (k', v') :: dictSet rest k v

/-- The `self.user_info` dict once populated by `save_user_info`
(field order as assigned in the source). -/
structure UserInfo where
  name : PyVal
  regn_id : PyVal
  age : Int
  gender : String
  height : Rat
  weight : Rat
  bmi : Rat
  bmr : Rat
  weekly_cal_goal : Int
deriving DecidableEq, Repr

/-- The `FitnessTracker` instance state: `user_info` (`Option.none` models the
initial empty dict), `workouts` keyed by category, and `daily_workouts`
keyed by ISO date. -/
structure FitnessTracker where
  user_info : Option UserInfo
  workouts : List (String × List Entry)
  daily_workouts : List (String × List (String × List Entry))
deriving DecidableEq, Repr

/-- `FitnessTracker.__init__`. -/
def FitnessTracker.init : FitnessTracker :=
  { user_info := Option.none
    workouts := [("Warm-up", []), ("Workout", []), ("Cool-down", [])]
    daily_workouts := [] }

/-- `self.user_info.get("weight", 70)`: the saved profile's weight,
defaulting to 70 when no profile is set. -/
def FitnessTracker.weightOrDefault (st : FitnessTracker) : Rat :=
  match st.user_info with
  | Option.some u => u.weight
  | Option.none => 70

/-- `FitnessTracker.add_workout(category, exercise, duration)`.
`exercise` arrives as a `str` (the route always passes one); `duration` can
be any Python value, so it stays a `PyVal`. `now` and `today` stand for
`datetime.now().strftime(...)` and `date.today().isoformat()`. Returns the
raised error or the created entry, together with the post state. -/
def FitnessTracker.add_workout (st : FitnessTracker) (category exercise : String)
    (duration : PyVal) (now today : String) :
    Except PyError Entry × FitnessTracker :=
  if exercise = "" ∨ duration = PyVal.none then
    (.error (.valueError "Exercise and duration are required."), st)
  else
    match duration with
    | .int d =>
      if d ≤ 0 then
        (.error (.valueError "Duration must be a positive integer."), st)
      else if ¬ dictContains st.workouts category then
        (.error (.valueError "Invalid category. Must be Warm-up, Workout, or Cool-down."), st)
      else
        let weight := st.weightOrDefault
        let met := ((MET_VALUES.lookup category).getD 5 : Rat)
        let calories := met * (7/2 : Rat) * weight / 200 * (d : Rat)
        let entry : Entry := ⟨exercise, d, calories, now⟩
        let workouts1 :=
          dictSet st.workouts category (((st.workouts.lookup category).getD []) ++ [entry])
        let daily0 :=
          if dictContains st.daily_workouts today then st.daily_workouts
          else st.daily_workouts ++
            [(today, [("Warm-up", []), ("Workout", []), ("Cool-down", [])])]
        let dayDict := (daily0.lookup today).getD []
        let dayDict1 :=
          dictSet dayDict category (((dayDict.lookup category).getD []) ++ [entry])
        let daily1 := dictSet daily0 today dayDict1
        (.ok entry, { st with workouts := workouts1, daily_workouts := daily1 })
    | _ => (.error (.valueError "Duration must be a positive integer."), st)

/-- Value of a nonempty digit string. -/
def digitsVal (l : List Char) : Nat :=
  l.foldl (fun acc c => acc * 10 + (c.toNat - 48)) 0

/-- Python `int(s)` on a plain decimal literal with an optional sign
(whitespace stripping and underscores are not modelled; no claim
exercises them). -/
def pyParseInt (s : String) : Option Int :=
  match s.data with
  | '-' :: rest =>
    if rest ≠ [] ∧ rest.all Char.isDigit then Option.some (-(digitsVal rest : Int))
    else Option.none
  | cs =>
    if cs ≠ [] ∧ cs.all Char.isDigit then Option.some ((digitsVal cs : Int))
    else Option.none

/-- Python `float(s)` on a plain decimal literal `[-]digits[.digits]`
(exponents, `inf`/`nan` and whitespace are not modelled; no claim
exercises them). -/
def pyParseFloat (s : String) : Option Rat :=
  let core := fun (t : String) =>
    match t.splitOn "." with
    | [a] =>
      if a.data ≠ [] ∧ a.data.all Char.isDigit then Option.some ((digitsVal a.data : Rat))
      else Option.none
    | [a, b] =>
      if (a.data ≠ [] ∨ b.data ≠ []) ∧ a.data.all Char.isDigit ∧ b.data.all Char.isDigit then
        Option.some ((digitsVal a.data : Rat) + (digitsVal b.data : Rat) / (10 : Rat) ^ b.data.length)
      else Option.none
    | _ => Option.none
  if s.startsWith "-" then (core (s.drop 1)).map (fun q => -q) else core s

/-- Python `int(v)`: identity on `int`, truncation toward zero on `float`,
decimal parse on `str` (`ValueError` on failure), `TypeError` on `None`. -/
def pyToInt : PyVal → Except PyError Int
  | .int n => .ok n
  | .float q => .ok (if q < 0 then ⌈q⌉ else ⌊q⌋)
  | .str s =>
    match pyParseInt s with
    | Option.some n => .ok n
    | Option.none => .error (.valueError ("invalid literal for int() with base 10: " ++ s))
  | .none => .error (.typeError "int() argument cannot be NoneType")

/-- Python `float(v)`: exact on `int` and `float`, decimal parse on `str`
(`ValueError` on failure), `TypeError` on `None`. -/
def pyToFloat : PyVal → Except PyError Rat
  | .int n => .ok (n : Rat)
  | .float q => .ok q
  | .str s =>
    match pyParseFloat s with
    | Option.some q => .ok q
    | Option.none => .error (.valueError ("could not convert string to float: " ++ s))
  | .none => .error (.typeError "float() argument cannot be NoneType")

/-- ASCII uppercase of one character, as Python `str.upper()` maps ASCII
input (the only kind the program compares genders against). -/
def pyCharUpper (c : Char) : Char :=
  if 'a' ≤ c ∧ c ≤ 'z' then Char.ofNat (c.toNat - 32) else c

/-- Python `s.upper()` on ASCII strings. -/
def pyStrUpper (s : String) : String :=
  String.mk (s.data.map pyCharUpper)

/-- Python `v.upper()`: defined on `str`, `AttributeError` otherwise. -/
def pyUpper : PyVal → Except PyError String
  | .str s => .ok (pyStrUpper s)
  | _ => .error (.attributeError "upper")

/-- The `try` body of `save_user_info`: the numeric conversions and the
gender normalization/check, in source order. Returns the parsed
`(age, height, weight, gender)`. -/
def saveUserInfoParse (age height_cm weight_kg gender : PyVal) :
    Except PyError (Int × Rat × Rat × String) := do
  let a ← pyToInt age
  let h ← pyToFloat height_cm
  let w ← pyToFloat weight_kg
  let g ← pyUpper gender
  if g ≠ "M" ∧ g ≠ "F" then
    Except.error (.valueError "Gender must be M or F")
  else
    Except.ok (a, h, w, g)

/-- `FitnessTracker.save_user_info(name, regn_id, age, gender, height_cm,
weight_kg)`: the falsy-field guard (raised outside the `try`), then parsing,
gender check, BMI and BMR (Mifflin-St Jeor), then wholesale replacement of
`self.user_info`; `ValueError`/`TypeError` from the body are re-raised as
`ValueError("Invalid input: ...")`. -/
def FitnessTracker.save_user_info (st : FitnessTracker)
    (name regn_id age gender height_cm weight_kg : PyVal) :
    Except PyError Bool × FitnessTracker :=
  if ¬ (name.truthy ∧ regn_id.truthy ∧ age.truthy ∧ gender.truthy ∧
        height_cm.truthy ∧ weight_kg.truthy) then
    (.error (.valueError "All user info fields are required."), st)
  else
    match saveUserInfoParse age height_cm weight_kg gender with
    | .ok (a, h, w, g) =>
      let bmi := w / ((h / 100) ^ 2)
      let bmr :=
        if g = "M" then 10 * w + (25/4 : Rat) * h - 5 * (a : Rat) + 5
        else 10 * w + (25/4 : Rat) * h - 5 * (a : Rat) - 161
      (.ok true,
        { st with user_info := Option.some ⟨name, regn_id, a, g, h, w, bmi, bmr, 2000⟩ })
    | .error (.valueError m) => (.error (.valueError ("Invalid input: " ++ m)), st)
    | .error (.typeError m) => (.error (.valueError ("Invalid input: " ++ m)), st)
    | .error e => (.error e, st)

/-- One row of `category_totals` in `get_workout_summary`. -/
structure CategoryTotal where
  time : Int
  calories : Rat
  sessions : Nat
deriving DecidableEq, Repr

/-- The dict returned by `get_workout_summary`. -/
structure Summary where
  total_time : Int
  total_calories : Rat
  category_totals : List (String × CategoryTotal)
deriving DecidableEq, Repr

/-- The `for category, sessions in self.workouts.items()` loop of
`get_workout_summary`, with the running totals as accumulators. -/
def summaryLoop : List (String × List Entry) → Int → Rat →
    List (String × CategoryTotal) → Summary
  | [], total_time, total_calories, category_totals =>
    ⟨total_time, total_calories, category_totals⟩
  | (category, sessions) :: rest, total_time, total_calories, category_totals =>
    let cat_time := (sessions.map Entry.duration).sum
    let cat_calories := (sessions.map Entry.calories).sum
    summaryLoop rest (total_time + cat_time) (total_calories + cat_calories)
      (category_totals ++ [(category, ⟨cat_time, cat_calories, sessions.length⟩)])

/-- `FitnessTracker.get_workout_summary`. -/
def FitnessTracker.get_workout_summary (st : FitnessTracker) : Summary :=
  summaryLoop st.workouts 0 0 []

/-- `FitnessTracker.get_workouts` at the level of dict values
(`self.workouts.copy()` is structurally the same mapping; the reference
structure of the copy is modelled separately by `TrackerObj`). -/
def FitnessTracker.get_workouts (st : FitnessTracker) : List (String × List Entry) :=
  st.workouts

/-- `FitnessTracker.get_user_info` (`self.user_info.copy()` as a value). -/
def FitnessTracker.get_user_info (st : FitnessTracker) : Option UserInfo :=
  st.user_info

/-- Modelled from the spec: the motivational tier of `get_summary`, a
three-band classifier over total minutes, absent from this revision's
`get_workout_summary` (the provided `src/app.py` returns only
`total_time`, `total_calories` and `category_totals`). Bands per the spec:
below 30 the "starting" tier, from 30 below 60 the "consistent" tier,
from 60 up the "excellent" tier. -/
def motivationalTier (total_time : Int) : String :=
  if total_time < 30 then "starting"
  else if total_time < 60 then "consistent"
  else "excellent"

/-!
Reference-level model of `get_workouts`. In CPython, `self.workouts` is a
dict whose values are references to list objects; `self.workouts.copy()`
builds a NEW dict holding the SAME references. `TrackerObj` makes those
references explicit: a heap of list objects addressed by index, and the
tracker's dict mapping each category name to an address. A dict returned
by `get_workouts` is another such `List (String × Nat)`; mutating it at
dict level never touches the tracker, while `result[cat].append(entry)`
mutates the heap cell both dicts point to.
-/

/-- The `FitnessTracker` object at reference level: a heap of list objects
(address = index) and `self.workouts` as a dict of addresses. -/
structure TrackerObj where
  lists : List (List Entry)
  workoutsDict : List (String × Nat)
deriving DecidableEq, Repr

/-- Dereference a dict of list addresses to the mapping of values it
presents. -/
def derefDict (lists : List (List Entry)) (d : List (String × Nat)) :
    List (String × List Entry) :=
  d.map (fun p => (p.1, lists.getD p.2 []))

/-- `self.workouts.copy()`: the new dict object returned by
`get_workouts`, holding the same key-to-address pairs. -/
def TrackerObj.get_workouts_copy (t : TrackerObj) : List (String × Nat) :=
  t.workoutsDict

/-- The store a (subsequent) `get_workouts()` call exposes, dereferenced to
values: the tracker's internal state as observed through its own dict. -/
def TrackerObj.internalStore (t : TrackerObj) : List (String × List Entry) :=
  derefDict t.lists t.workoutsDict

/-- `d[k].append(e)` performed on a returned snapshot dict `d`: the list
object at the address `d` maps `k` to is mutated in the heap. -/
def TrackerObj.appendViaDict (t : TrackerObj) (d : List (String × Nat))
    (k : String) (e : Entry) : TrackerObj :=
  match d.lookup k with
  | Option.some a => { t with lists := t.lists.set a (t.lists.getD a [] ++ [e]) }
  | Option.none => t

/-- A fresh tracker at reference level: three empty list objects, one per
category. -/
def TrackerObj.initObj : TrackerObj :=
  ⟨[[], [], []], [("Warm-up", 0), ("Workout", 1), ("Cool-down", 2)]⟩

/-- A sample entry used in concrete evaluations. -/
def sampleEntry : Entry := ⟨"Run", 5, 0, "2026-01-01 10:00:00"⟩

/-! ### Helper lemmas -/

theorem lookup_dictSet_self {α : Type} (d : List (String × α)) (k : String) (v : α) :
    (dictSet d k v).lookup k = Option.some v := by
  induction d with
  | nil => simp [dictSet]
  | cons p rest ih =>
    obtain ⟨k0, v0⟩ := p
    by_cases h : k0 = k
    · simp [dictSet, h]
    · have hb : (k == k0) = false := beq_eq_false_iff_ne.2 (Ne.symm h)
      simp [dictSet, h, List.lookup_cons, hb, ih]

theorem lookup_dictSet_ne {α : Type} (d : List (String × α)) (k k' : String) (v : α)
    (h : k' ≠ k) :
    (dictSet d k v).lookup k' = d.lookup k' := by
  have hb : (k' == k) = false := beq_eq_false_iff_ne.2 h
  induction d with
  | nil => simp [dictSet, List.lookup_cons, hb]
  | cons p rest ih =>
    obtain ⟨k0, v0⟩ := p
    by_cases h0 : k0 = k
    · subst h0
      simp [dictSet, List.lookup_cons, hb]
    · cases hc : (k' == k0) <;> simp [dictSet, h0, List.lookup_cons, hc, ih]

theorem dictSet_map_fst_of_contains {α : Type} (d : List (String × α)) (k : String) (v : α)
    (h : dictContains d k = true) :
    (dictSet d k v).map Prod.fst = d.map Prod.fst := by
  induction d with
  | nil => simp [dictContains] at h
  | cons p rest ih =>
    obtain ⟨k0, v0⟩ := p
    by_cases h0 : k0 = k
    · simp [dictSet, h0]
    · have hb : (k == k0) = false := beq_eq_false_iff_ne.2 (Ne.symm h0)
      have hrest : dictContains rest k = true := by
        simpa [dictContains, List.lookup_cons, hb] using h
      simp [dictSet, h0, ih hrest]

theorem getD_set_self {α : Type} (l : List α) (a : Nat) (v dflt : α) (h : a < l.length) :
    (l.set a v).getD a dflt = v := by
  induction l generalizing a with
  | nil => simp at h
  | cons x xs ih =>
    cases a with
    | zero => rfl
    | succ n => exact ih n (by simpa using h)

theorem getD_set_ne {α : Type} (l : List α) (a i : Nat) (v dflt : α) (h : i ≠ a) :
    (l.set a v).getD i dflt = l.getD i dflt := by
  induction l generalizing a i with
  | nil => simp
  | cons x xs ih =>
    cases a with
    | zero =>
      cases i with
      | zero => exact absurd rfl h
      | succ m => rfl
    | succ n =>
      cases i with
      | zero => rfl
      | succ m => exact ih n m (by omega)

theorem summaryLoop_category_totals (ws : List (String × List Entry)) (tt : Int) (tc : Rat)
    (cts : List (String × CategoryTotal)) :
    (summaryLoop ws tt tc cts).category_totals
      = cts ++ ws.map (fun p =>
          (p.1, ⟨(p.2.map Entry.duration).sum, (p.2.map Entry.calories).sum, p.2.length⟩)) := by
  induction ws generalizing tt tc cts with
  | nil => simp [summaryLoop]
  | cons p rest ih => simp [summaryLoop, ih]

theorem summaryLoop_total_time (ws : List (String × List Entry)) (tt : Int) (tc : Rat)
    (cts : List (String × CategoryTotal)) :
    (summaryLoop ws tt tc cts).total_time
      = tt + (ws.map (fun p => (p.2.map Entry.duration).sum)).sum := by
  induction ws generalizing tt tc cts with
  | nil => simp [summaryLoop]
  | cons p rest ih =>
    simp only [summaryLoop, ih, List.map_cons, List.sum_cons]
    ring

/-! ### Claim theorems -/

/-- C2: the motivational tier over the summary's total time is a pure
three-band classifier with lower-bound-inclusive boundaries: below 30
minutes "starting", from 30 to below 60 "consistent", from 60 up
"excellent"; in particular 29 gives "starting", 30 and 59 give
"consistent", and 60 gives "excellent". -/
theorem motivational_tier_three_bands (st : FitnessTracker) :
    ((st.get_workout_summary).total_time < 30 →
      motivationalTier (st.get_workout_summary).total_time = "starting")
  ∧ (30 ≤ (st.get_workout_summary).total_time ∧ (st.get_workout_summary).total_time < 60 →
      motivationalTier (st.get_workout_summary).total_time = "consistent")
  ∧ (60 ≤ (st.get_workout_summary).total_time →
      motivationalTier (st.get_workout_summary).total_time = "excellent")
  ∧ motivationalTier 29 = "starting"
  ∧ motivationalTier 30 = "consistent"
  ∧ motivationalTier 59 = "consistent"
  ∧ motivationalTier 60 = "excellent" := by
  refine ⟨?_, ?_, ?_, by decide, by decide, by decide, by decide⟩ <;>
    · intro h
      unfold motivationalTier
      split_ifs <;> first | rfl | omega

/-- Witness for C2: the empty tracker's summary totals 0 minutes, which the
classifier places in the "starting" tier. -/
theorem motivational_tier_three_bands_witness :
    motivationalTier (FitnessTracker.init.get_workout_summary).total_time = "starting" :=
  (motivational_tier_three_bands FitnessTracker.init).1 (by decide)

/-- Counterexample for C3: on a non-empty exercise with a present,
non-integer duration (the string "abc"), `add_workout` raises
`ValueError("Duration must be a positive integer.")` — an error that is not
of the `TypeError` class. -/
theorem add_workout_noninteger_valueerror_cx :
    ((FitnessTracker.init.add_workout "Workout" "Run" (PyVal.str "abc")
        "2026-01-01 10:00:00" "2026-01-01").1
      = Except.error (PyError.valueError "Duration must be a positive integer."))
  ∧ ((match (FitnessTracker.init.add_workout "Workout" "Run" (PyVal.str "abc")
        "2026-01-01 10:00:00" "2026-01-01").1 with
      | Except.error e => PyError.isTypeError e
      | Except.ok _ => true) = false) := by
  exact ⟨rfl, rfl⟩

/-- C3 (amended): on every input where the exercise is non-empty and the
duration is present but not an integer, `add_workout` fails with
`ValueError("Duration must be a positive integer.")` — the
`ValidationError`/`ValueError` class, not `TypeError` — leaving the state
unchanged. -/
theorem add_workout_noninteger_duration_valueerror (st : FitnessTracker)
    (category exercise : String) (duration : PyVal) (now today : String)
    (hex : exercise ≠ "") (hnone : duration ≠ PyVal.none)
    (hint : duration.isInt = false) :
    st.add_workout category exercise duration now today
      = (Except.error (PyError.valueError "Duration must be a positive integer."), st) := by
  cases duration with
  | none => exact absurd rfl hnone
  | int n => simp [PyVal.isInt] at hint
  | float q =>
    unfold FitnessTracker.add_workout
    rw [if_neg]
    rintro (h | h)
    · exact hex h
    · exact PyVal.noConfusion h
  | str s =>
    unfold FitnessTracker.add_workout
    rw [if_neg]
    rintro (h | h)
    · exact hex h
    · exact PyVal.noConfusion h

/-- Witness for C3's amended theorem at the concrete input of the
counterexample. -/
theorem add_workout_noninteger_duration_valueerror_witness :
    FitnessTracker.init.add_workout "Workout" "Run" (PyVal.str "abc") "T" "D"
      = (Except.error (PyError.valueError "Duration must be a positive integer."),
         FitnessTracker.init) :=
  add_workout_noninteger_duration_valueerror FitnessTracker.init "Workout" "Run"
    (PyVal.str "abc") "T" "D" (by decide) (by decide) (by decide)

/-- C10: whenever any of the six arguments of `save_user_info` is falsy —
numeric zeros included, not only empty strings or `None` — the call fails
with `ValueError("All user info fields are required.")` and leaves the
state (any prior profile included) unchanged. -/
theorem save_user_info_falsy_field_required_error (st : FitnessTracker)
    (name regn_id age gender height_cm weight_kg : PyVal)
    (h : name.truthy = false ∨ regn_id.truthy = false ∨ age.truthy = false ∨
         gender.truthy = false ∨ height_cm.truthy = false ∨ weight_kg.truthy = false) :
    st.save_user_info name regn_id age gender height_cm weight_kg
      = (Except.error (PyError.valueError "All user info fields are required."), st) := by
  unfold FitnessTracker.save_user_info
  rw [if_pos]
  rintro ⟨h1, h2, h3, h4, h5, h6⟩
  rcases h with hh | hh | hh | hh | hh | hh <;> simp_all

/-- Witness for C10: `age = 0` (an `int` zero, with every other field
present and truthy) is rejected as a missing field on the fresh tracker. -/
theorem save_user_info_falsy_field_required_error_witness :
    FitnessTracker.init.save_user_info (PyVal.str "A") (PyVal.str "B") (PyVal.int 0)
        (PyVal.str "M") (PyVal.float 180) (PyVal.float 80)
      = (Except.error (PyError.valueError "All user info fields are required."),
         FitnessTracker.init) :=
  save_user_info_falsy_field_required_error FitnessTracker.init (PyVal.str "A")
    (PyVal.str "B") (PyVal.int 0) (PyVal.str "M") (PyVal.float 180) (PyVal.float 80)
    (Or.inr (Or.inr (Or.inl (by decide))))

/-- C4: every entry stored by a successful `add_workout` carries
`calories = MET[category] * 3.5 * weight / 200 * duration`, where the
weight is the saved profile's weight when a profile exists and 70
otherwise (`weightOrDefault`). -/
theorem add_workout_calorie_formula (st : FitnessTracker)
    (category exercise : String) (d : Int) (now today : String) (entry : Entry)
    (st2 : FitnessTracker)
    (h : st.add_workout category exercise (PyVal.int d) now today = (Except.ok entry, st2)) :
    entry.calories
      = ((MET_VALUES.lookup category).getD 5 : Rat) * (7/2 : Rat)
          * st.weightOrDefault / 200 * (d : Rat)
  ∧ entry.duration = d := by
  simp only [FitnessTracker.add_workout] at h
  split_ifs at h <;>
    first
    | (rw [Prod.mk.injEq] at h
       obtain ⟨h1, h2⟩ := h
       rw [Except.ok.injEq] at h1
       subst h1
       exact ⟨rfl, rfl⟩)
    | simp at h

/-- Witness for C4: with no profile (default weight 70), category
"Workout" (MET 6) and duration 30, the stored calories equal the MET
formula's value, which evaluates to 441/2 = 220.5. -/
theorem add_workout_calorie_formula_witness :
    ((⟨"Run", 30, ((MET_VALUES.lookup "Workout").getD 5 : Rat) * (7/2 : Rat)
          * FitnessTracker.init.weightOrDefault / 200 * ((30 : Int) : Rat), "T"⟩ : Entry).calories
      = ((MET_VALUES.lookup "Workout").getD 5 : Rat) * (7/2 : Rat)
          * FitnessTracker.init.weightOrDefault / 200 * ((30 : Int) : Rat))
  ∧ (((MET_VALUES.lookup "Workout").getD 5 : Rat) * (7/2 : Rat)
          * FitnessTracker.init.weightOrDefault / 200 * ((30 : Int) : Rat) = 441/2) := by
  constructor
  · exact (add_workout_calorie_formula FitnessTracker.init "Workout" "Run" 30 "T" "D"
      ⟨"Run", 30, ((MET_VALUES.lookup "Workout").getD 5 : Rat) * (7/2 : Rat)
          * FitnessTracker.init.weightOrDefault / 200 * ((30 : Int) : Rat), "T"⟩
      (FitnessTracker.init.add_workout "Workout" "Run" (PyVal.int 30) "T" "D").2 rfl).1
  · have hb1 : ("Workout" == "Warm-up") = false := rfl
    have hb2 : ("Workout" == "Workout") = true := rfl
    norm_num [MET_VALUES, List.lookup, hb1, hb2, FitnessTracker.weightOrDefault,
      FitnessTracker.init]

/-- C5: whenever `add_workout` fails validation (empty exercise, missing
duration, non-integer or non-positive duration, or invalid category), the
tracker state — the workout store in particular — is left exactly
unchanged, and the raised error carries the reason. -/
theorem add_workout_error_leaves_state (st : FitnessTracker)
    (category exercise : String) (duration : PyVal) (now today : String) (e : PyError)
    (h : (st.add_workout category exercise duration now today).1 = Except.error e) :
    (st.add_workout category exercise duration now today).2 = st := by
  cases duration <;>
    simp only [FitnessTracker.add_workout] at h ⊢ <;>
    split_ifs at h ⊢ <;>
    simp_all

/-- Witness for C5: an empty exercise on the fresh tracker errors and
leaves the state at `init`. -/
theorem add_workout_error_leaves_state_witness :
    (FitnessTracker.init.add_workout "Workout" "" (PyVal.int 10) "T" "D").2
      = FitnessTracker.init :=
  add_workout_error_leaves_state FitnessTracker.init "Workout" "" (PyVal.int 10) "T" "D"
    (PyError.valueError "Exercise and duration are required.") rfl

/-- C7: a successful `add_workout` appends the created entry at the end of
the target category's sequence — raising that category's count by exactly
one — and leaves every other category's sequence unchanged. -/
theorem add_workout_appends_to_target_category (st : FitnessTracker)
    (category exercise : String) (d : Int) (now today : String) (entry : Entry)
    (st2 : FitnessTracker)
    (h : st.add_workout category exercise (PyVal.int d) now today = (Except.ok entry, st2)) :
    (st2.workouts.lookup category
      = Option.some (((st.workouts.lookup category).getD []) ++ [entry]))
  ∧ (∀ k, k ≠ category → st2.workouts.lookup k = st.workouts.lookup k)
  ∧ ((st2.workouts.lookup category).getD []).length
      = (((st.workouts.lookup category).getD []).length) + 1 := by
  simp only [FitnessTracker.add_workout] at h
  split_ifs at h <;>
    first
    | (rw [Prod.mk.injEq] at h
       obtain ⟨h1, h2⟩ := h
       rw [Except.ok.injEq] at h1
       subst h1
       subst h2
       refine ⟨?_, fun k hk => ?_, ?_⟩
       · exact lookup_dictSet_self _ _ _
       · exact lookup_dictSet_ne _ _ _ _ hk
       · simp [lookup_dictSet_self])
    | simp at h

/-- Witness for C7: adding a 5-minute run to "Workout" on the fresh tracker
makes that category's sequence exactly the one created entry and leaves
"Warm-up" untouched. -/
theorem add_workout_appends_to_target_category_witness :
    (((FitnessTracker.init.add_workout "Workout" "Run" (PyVal.int 5) "T" "D").2).workouts.lookup
        "Workout"
      = Option.some (((FitnessTracker.init.workouts.lookup "Workout").getD [])
          ++ [(⟨"Run", 5, ((MET_VALUES.lookup "Workout").getD 5 : Rat) * (7/2 : Rat)
                * FitnessTracker.init.weightOrDefault / 200 * ((5 : Int) : Rat), "T"⟩ : Entry)]))
  ∧ (((FitnessTracker.init.add_workout "Workout" "Run" (PyVal.int 5) "T" "D").2).workouts.lookup
        "Warm-up" = FitnessTracker.init.workouts.lookup "Warm-up") := by
  have h := add_workout_appends_to_target_category FitnessTracker.init "Workout" "Run" 5
    "T" "D" ⟨"Run", 5, ((MET_VALUES.lookup "Workout").getD 5 : Rat) * (7/2 : Rat)
        * FitnessTracker.init.weightOrDefault / 200 * ((5 : Int) : Rat), "T"⟩
    (FitnessTracker.init.add_workout "Workout" "Run" (PyVal.int 5) "T" "D").2 rfl
  exact ⟨h.1, h.2.1 "Warm-up" (by decide)⟩

/-- C6: for every tracker state the summary's `total_time` equals the sum
of the per-category `time` totals it reports, and the empty store's total
time is zero. -/
theorem summary_total_time_eq_sum_of_category_totals (st : FitnessTracker) :
    (st.get_workout_summary).total_time
      = ((st.get_workout_summary).category_totals.map (fun p => p.2.time)).sum
  ∧ (FitnessTracker.init.get_workout_summary).total_time = 0 := by
  constructor
  · simp only [FitnessTracker.get_workout_summary, summaryLoop_total_time,
      summaryLoop_category_totals, List.nil_append, zero_add, List.map_map]
    rfl
  · decide

/-- The C8 invariant: the workout store holds exactly the three category
keys "Warm-up", "Workout" and "Cool-down", in insertion order, and no
other key. -/
def categoryKeysInvariant (st : FitnessTracker) : Prop :=
  st.workouts.map Prod.fst = ["Warm-up", "Workout", "Cool-down"]

/-- C8: the three-key workout store invariant holds initially and is
preserved by `add_workout` (on success and on every validation failure)
and by `save_user_info`; the getters read the state without modifying it,
and under the invariant `get_workouts` exposes exactly the three keys. -/
theorem workout_store_three_keys_invariant :
    categoryKeysInvariant FitnessTracker.init
  ∧ (∀ st category exercise duration now today, categoryKeysInvariant st →
      categoryKeysInvariant ((st.add_workout category exercise duration now today).2))
  ∧ (∀ st name regn_id age gender height_cm weight_kg, categoryKeysInvariant st →
      categoryKeysInvariant
        ((st.save_user_info name regn_id age gender height_cm weight_kg).2))
  ∧ (∀ st, categoryKeysInvariant st →
      (st.get_workouts).map Prod.fst = ["Warm-up", "Workout", "Cool-down"]) := by
  refine ⟨rfl, ?_, ?_, ?_⟩
  · intro st category exercise duration now today hinv
    unfold categoryKeysInvariant at hinv ⊢
    cases duration <;> simp only [FitnessTracker.add_workout] <;> split_ifs <;>
      first
      | exact hinv
      | exact (dictSet_map_fst_of_contains _ _ _ (by assumption)).trans hinv
  · intro st name regn_id age gender height_cm weight_kg hinv
    unfold categoryKeysInvariant at hinv ⊢
    unfold FitnessTracker.save_user_info
    split_ifs
    · split <;> exact hinv
    · exact hinv
  · intro st hinv
    exact hinv

/-- Witness for C8: the invariant holds at `init` and after one successful
`add_workout` on it. -/
theorem workout_store_three_keys_invariant_witness :
    categoryKeysInvariant
      ((FitnessTracker.init.add_workout "Workout" "Run" (PyVal.int 5) "T" "D").2) :=
  workout_store_three_keys_invariant.2.1 FitnessTracker.init "Workout" "Run" (PyVal.int 5)
    "T" "D" workout_store_three_keys_invariant.1

/-- C9: the profile stored by a successful `save_user_info` satisfies
BMI = weight / (height/100)^2 and the Mifflin-St Jeor BMR:
10*weight + 6.25*height - 5*age + 5 for gender "M" and
10*weight + 6.25*height - 5*age - 161 for gender "F". -/
theorem save_user_info_bmi_bmr_formulas (st : FitnessTracker)
    (name regn_id age gender height_cm weight_kg : PyVal) (ui : UserInfo)
    (st2 : FitnessTracker)
    (h : st.save_user_info name regn_id age gender height_cm weight_kg
          = (Except.ok true, st2))
    (hui : st2.user_info = Option.some ui) :
    ui.bmi = ui.weight / ((ui.height / 100) ^ 2)
  ∧ (ui.gender = "M" →
      ui.bmr = 10 * ui.weight + (25/4 : Rat) * ui.height - 5 * (ui.age : Rat) + 5)
  ∧ (ui.gender = "F" →
      ui.bmr = 10 * ui.weight + (25/4 : Rat) * ui.height - 5 * (ui.age : Rat) - 161) := by
  unfold FitnessTracker.save_user_info at h
  split_ifs at h
  · split at h
    · rw [Prod.mk.injEq] at h
      obtain ⟨h1, h2⟩ := h
      subst h2
      simp only [Option.some.injEq] at hui
      subst hui
      refine ⟨rfl, fun hM => ?_, fun hF => ?_⟩
      · have hg : _ = "M" := hM
        simp only [] at hg
        simp [hg]
      · have hg : _ = "F" := hF
        simp only [] at hg
        simp [hg]
    · simp at h
    · simp at h
    · simp at h
  · simp at h

/-- The profile stored for the C9 witness input (name "A", id "B", age 25,
gender "M", height 180 cm, weight 80 kg), fields exactly as
`save_user_info` computes them. -/
def savedProfileExample : UserInfo :=
  ⟨PyVal.str "A", PyVal.str "B", 25, "M", 180, 80,
   (80 : Rat) / (((180 : Rat) / 100) ^ 2),
   10 * (80 : Rat) + (25/4 : Rat) * (180 : Rat) - 5 * ((25 : Int) : Rat) + 5, 2000⟩

/-- Witness for C9: the concrete male profile (80 kg, 180 cm, 25 years)
satisfies the formulas, with BMI = 2000/81 (≈ 24.69) and BMR = 1805. -/
theorem save_user_info_bmi_bmr_witness :
    (savedProfileExample.bmi
        = savedProfileExample.weight / ((savedProfileExample.height / 100) ^ 2))
  ∧ savedProfileExample.bmi = 2000/81
  ∧ savedProfileExample.bmr = 1805 := by
  refine ⟨(save_user_info_bmi_bmr_formulas FitnessTracker.init (PyVal.str "A")
      (PyVal.str "B") (PyVal.int 25) (PyVal.str "M") (PyVal.float 180) (PyVal.float 80)
      savedProfileExample
      (FitnessTracker.init.save_user_info (PyVal.str "A") (PyVal.str "B") (PyVal.int 25)
        (PyVal.str "M") (PyVal.float 180) (PyVal.float 80)).2 rfl rfl).1, ?_, ?_⟩
  · norm_num [savedProfileExample]
  · norm_num [savedProfileExample]

/-- Counterexample for C1: `get_workouts` is not a deep copy — on a fresh
tracker, appending an entry to the "Workout" list reached through the
returned snapshot dict changes the tracker's own internal store (and thus
what a subsequent `get_workouts` exposes). -/
theorem get_workouts_deep_copy_counterexample :
    (TrackerObj.initObj.appendViaDict TrackerObj.initObj.get_workouts_copy
        "Workout" sampleEntry).internalStore
      ≠ TrackerObj.initObj.internalStore := by
  decide

/-- C1 (amended): `get_workouts` returns a shallow copy — a new dict
structurally equal to the internal store, whose per-category entry lists
are shared by reference: appending an entry to a category's list through
the snapshot changes the tracker's internal store at every key aliasing
that list object (the target key included). -/
theorem get_workouts_shallow_copy (t : TrackerObj) (k : String) (a : Nat) (e : Entry)
    (hk : (t.get_workouts_copy).lookup k = Option.some a) (ha : a < t.lists.length) :
    derefDict t.lists t.get_workouts_copy = t.internalStore
  ∧ (t.appendViaDict t.get_workouts_copy k e).internalStore
      = t.workoutsDict.map
          (fun p => (p.1, (t.lists.getD p.2 []) ++ (if p.2 = a then [e] else []))) := by
  refine ⟨rfl, ?_⟩
  unfold TrackerObj.appendViaDict
  rw [hk]
  unfold TrackerObj.internalStore derefDict
  simp only [List.map_inj_left, Prod.forall]
  intro s b hmem
  by_cases hpa : b = a
  · subst hpa
    rw [if_pos rfl]
    exact congrArg (Prod.mk s) (getD_set_self _ _ _ _ ha)
  · rw [if_neg hpa, List.append_nil]
    exact congrArg (Prod.mk s) (getD_set_ne _ _ _ _ _ hpa)

/-- Witness for C1's amended theorem on the fresh tracker: the snapshot is
structurally the internal store, and appending through the snapshot at
"Workout" (list object at address 1) appends to the internal store's
"Workout" list. -/
theorem get_workouts_shallow_copy_witness :
    derefDict TrackerObj.initObj.lists TrackerObj.initObj.get_workouts_copy
        = TrackerObj.initObj.internalStore
  ∧ (TrackerObj.initObj.appendViaDict TrackerObj.initObj.get_workouts_copy "Workout"
        sampleEntry).internalStore
      = TrackerObj.initObj.workoutsDict.map
          (fun p => (p.1, (TrackerObj.initObj.lists.getD p.2 [])
            ++ (if p.2 = 1 then [sampleEntry] else []))) :=
  get_workouts_shallow_copy TrackerObj.initObj "Workout" 1 sampleEntry (by decide)
    (by decide)

end AceFitness
